import Mathlib

/-!
Verification development for the legacy reimbursement calculator
(`calculate_reimbursement.py`).

Modelling conventions:
* Python `Decimal` values are modelled as exact rationals (`ℚ`).  All
  `Decimal` additions, subtractions and multiplications occurring in the
  program are exact at the default context precision, so this is faithful;
  the few `Decimal` divisions (`1/days`, `miles/days`) are modelled as exact
  rational division.
* `days` is a Python `int`, modelled as `ℤ`.
* `Decimal.quantize(Decimal('0.01'), ROUND_HALF_UP)` rounds to the nearest
  cent with ties away from zero.
* Python `Decimal.__mod__` is the truncated remainder (sign of the
  dividend); `int(...)` on a `Decimal` truncates toward zero.
* Fallible operations (list indexing, dictionary access on the model
  artifact) return `Option`; `none` models a raised exception or, for the
  tree walk, non-termination of the `while` loop.
-/

/-- Truncation of a rational toward zero, as Python `int(Decimal)`. -/
def truncQ (x : ℚ) : ℤ := if 0 ≤ x then ⌊x⌋ else ⌈x⌉

/-- Python `Decimal.__mod__`: truncated remainder, sign of the dividend. -/
def pyDecMod (x y : ℚ) : ℚ := x - y * (truncQ (x / y) : ℚ)

/-- `_r` (source line 18): quantize to cents with `ROUND_HALF_UP`
(round to nearest, ties away from zero). -/
def _r (x : ℚ) : ℚ :=
  if 0 ≤ x then ((⌊x * 100 + 1/2⌋ : ℤ) : ℚ) / 100
  else -(((⌊(-x) * 100 + 1/2⌋ : ℤ) : ℚ) / 100)

/-! ## Layer 0: per-diem -/

/-- `BASE_PER_DIEM_RATES` (source lines 125-132), a dict keyed by day
count; modelled as a finite partial map. -/
def BASE_PER_DIEM_RATES (d : ℤ) : Option ℚ :=
  if d = 1 then some 120
  else if d = 2 then some 100 else if d = 3 then some 100
  else if d = 4 then some 110 else if d = 5 then some 110
  else if d = 6 then some 110
  else if d = 7 then some 75 else if d = 8 then some 60
  else if d = 9 then some 55
  else if d = 10 then some 55 else if d = 11 then some 60
  else if d = 12 then some 60
  else if d = 13 then some 55 else if d = 14 then some 50
  else none

/-- `get_base_per_diem_rate` (source lines 172-179). -/
def get_base_per_diem_rate (trip_duration_days : ℤ) : ℚ :=
  match BASE_PER_DIEM_RATES trip_duration_days with
  | some r => r
  | none => if trip_duration_days > 14 then 45 else 50

/-- `calculate_layer_0_per_diem` (source lines 195-199). -/
def calculate_layer_0_per_diem (trip_duration_days : ℤ) : ℚ :=
  get_base_per_diem_rate trip_duration_days * (trip_duration_days : ℚ)

/-! ## Layer 1: mileage -/

def MILEAGE_TIER_BREAKPOINT : ℚ := 100
def MILEAGE_RATE_LOW : ℚ := 58/100
def MILEAGE_RATE_HIGH : ℚ := 15/100
def HIGH_MILEAGE_BONUS_THRESHOLD : ℚ := 500
def HIGH_MILEAGE_BONUS_BASE_RATE : ℚ := 30/100
def LONG_TRIP_BONUS_THRESHOLD_DAYS : ℤ := 7
def LONG_TRIP_BONUS_THRESHOLD_MILES : ℚ := 700
def LONG_TRIP_BONUS_RATE : ℚ := 25/100
def LONG_TRIP_MIN_MILES_PER_DAY : ℚ := 120

/-- `calculate_layer_1_mileage` (source lines 201-229). -/
def calculate_layer_1_mileage (trip_duration_days : ℤ) (miles_traveled : ℚ) : ℚ :=
  let miles := miles_traveled
  let days := trip_duration_days
  let base :=
    if miles ≤ MILEAGE_TIER_BREAKPOINT then miles * MILEAGE_RATE_LOW
    else MILEAGE_TIER_BREAKPOINT * MILEAGE_RATE_LOW +
      (miles - MILEAGE_TIER_BREAKPOINT) * MILEAGE_RATE_HIGH
  let withHigh :=
    if miles > HIGH_MILEAGE_BONUS_THRESHOLD then
      base + (miles - HIGH_MILEAGE_BONUS_THRESHOLD) *
        (HIGH_MILEAGE_BONUS_BASE_RATE * (1 + 1 / (days : ℚ)))
    else base
  if days ≥ LONG_TRIP_BONUS_THRESHOLD_DAYS ∧
      miles > LONG_TRIP_BONUS_THRESHOLD_MILES ∧
      miles / (days : ℚ) > LONG_TRIP_MIN_MILES_PER_DAY then
    withHigh + (miles - LONG_TRIP_BONUS_THRESHOLD_MILES) * LONG_TRIP_BONUS_RATE
  else withHigh

/-! ## Layer 2: receipts -/

/-- `DAILY_RECEIPT_CAPS` (source lines 150-155). -/
def DAILY_RECEIPT_CAPS (d : ℤ) : Option ℚ :=
  if d = 1 then some 200
  else if d = 2 then some 150 else if d = 3 then some 150
  else if d = 4 then some 120 else if d = 5 then some 120
  else if d = 6 then some 120
  else if d = 7 then some 100
  else none

/-- `get_daily_receipt_cap` (source lines 181-186); the fallback is the
entry for 7 days (`DAILY_RECEIPT_CAPS[7] = 100`). -/
def get_daily_receipt_cap (trip_duration_days : ℤ) : ℚ :=
  match DAILY_RECEIPT_CAPS trip_duration_days with
  | some c => c
  | none => (DAILY_RECEIPT_CAPS 7).getD 0

def RECEIPT_BASE_RATE : ℚ := 60/100

/-- `RECEIPT_EXCESS_RATES` (source lines 160-165), in dict insertion
order: `(min_days, max_days, rate)`. -/
def RECEIPT_EXCESS_RATES : List (ℤ × ℤ × ℚ) :=
  [(1, 1, 0), (2, 3, 40/100), (4, 6, 10/100), (7, 30, 20/100)]

/-- `get_receipt_excess_rate` (source lines 188-193): first entry whose
day range contains the day count, else the `long` rate. -/
def get_receipt_excess_rate (trip_duration_days : ℤ) : ℚ :=
  match RECEIPT_EXCESS_RATES.find?
      (fun t => decide (t.1 ≤ trip_duration_days ∧ trip_duration_days ≤ t.2.1)) with
  | some t => t.2.2
  | none => 20/100

/-- Cents extraction (source line 280):
`int((receipts % Decimal('1.00')) * Decimal('100'))`. -/
def receipt_cents (receipts : ℚ) : ℤ :=
  truncQ (pyDecMod receipts 1 * 100)

/-- The conditional `$5` legacy bonus (source lines 279-282). -/
def cents_quirk_bonus (receipts : ℚ) : ℚ :=
  if receipt_cents receipts = 49 ∨ receipt_cents receipts = 99 then 5 else 0

/-- `calculate_layer_2_receipts` before the legacy cents bonus
(source lines 231-277). -/
def calculate_layer_2_receipts_base (trip_duration_days : ℤ) (total_receipts_amount : ℚ) : ℚ :=
  let days := trip_duration_days
  let receipts := total_receipts_amount
  if days = 1 then
    -- tiered structure for single-day trips
    let tier1_amount := min receipts 500
    let c1 := tier1_amount * (60/100)
    let remaining1 := receipts - tier1_amount
    if remaining1 > 0 then
      let tier2_amount := min remaining1 1000
      let c2 := c1 + tier2_amount * (40/100)
      let remaining2 := remaining1 - tier2_amount
      if remaining2 > 0 then c2 + remaining2 * (20/100) else c2
    else c1
  else
    let daily_cap := get_daily_receipt_cap days
    let total_cap := daily_cap * (days : ℚ)
    let excess_rate := get_receipt_excess_rate days
    if receipts ≤ total_cap then receipts * RECEIPT_BASE_RATE
    else total_cap * RECEIPT_BASE_RATE + (receipts - total_cap) * excess_rate

/-- `calculate_layer_2_receipts` (source lines 231-284). -/
def calculate_layer_2_receipts (trip_duration_days : ℤ) (total_receipts_amount : ℚ) : ℚ :=
  calculate_layer_2_receipts_base trip_duration_days total_receipts_amount +
    cents_quirk_bonus total_receipts_amount

/-! ## Layer 3: efficiency -/

def EFFICIENCY_SWEET_SPOT_MIN : ℚ := 180
def EFFICIENCY_SWEET_SPOT_MAX : ℚ := 220
def EFFICIENCY_BONUS_RATE : ℚ := 15/100

/-- `calculate_layer_3_efficiency_bonus` (source lines 286-309). -/
def calculate_layer_3_efficiency_bonus (trip_duration_days : ℤ) (miles_traveled : ℚ) : ℚ :=
  let days := trip_duration_days
  let miles := miles_traveled
  if days = 0 then 0
  else
    let miles_per_day := miles / (days : ℚ)
    if EFFICIENCY_SWEET_SPOT_MIN ≤ miles_per_day ∧ miles_per_day ≤ EFFICIENCY_SWEET_SPOT_MAX then
      calculate_layer_1_mileage days miles * EFFICIENCY_BONUS_RATE
    else if miles_per_day < 50 then
      -(calculate_layer_1_mileage days miles * (5/100))
    else 0

/-! ## Layer 4: special cases -/

/-- `calculate_layer_4_special_cases` (source lines 311-332). -/
def calculate_layer_4_special_cases (trip_duration_days : ℤ) (miles_traveled : ℚ)
    (total_receipts_amount : ℚ) : ℚ :=
  let days := trip_duration_days
  let miles := miles_traveled
  let receipts := total_receipts_amount
  let s1 := if days = 5 then (15 : ℚ) else 0
  let s2 := if receipts + miles > 1500 then s1 + 25 else s1
  if days = 1 ∧ (miles > 500 ∨ receipts > 1000) then s2 + 50 else s2

/-! ## GBM residual model

The model artifact (`gbm_residual.json`) is a JSON document; its numeric
fields are modelled as rationals and the relevant structure as records.
The derived-feature construction (source lines 42-70) uses `log1p` and so
is transcendental; the feature vector is taken as an abstract input to the
prediction functions, which is all the claims about this component need. -/

/-- A tree node as exported in the artifact: `feat`, `threshold`,
`left`, `right`, `value`. -/
structure TreeNode where
  feat : ℤ
  threshold : ℚ
  left : ℤ
  right : ℤ
  value : ℚ
deriving DecidableEq

abbrev GbmTree := List TreeNode

/-- The per-model fields used by `_predict_single_model`
(source lines 97-122). -/
structure SingleModel where
  init_prediction : ℚ
  learning_rate : ℚ
  trees : List GbmTree
deriving DecidableEq

/-- The top-level artifact fields used by `_predict_ml_residual`
(source lines 35-95).  The non-ensemble path reads `init_prediction`,
`learning_rate` and `trees` from the top level (`base`); the ensemble
path reads sub-documents `model1`/`model2` (absent keys raise in Python,
hence `Option`).  `shrink` and `cap` are optional with defaults. -/
structure GbmModel where
  base : SingleModel
  is_ensemble : Bool
  model1 : Option SingleModel
  model2 : Option SingleModel
  shrink : Option ℚ
  cap : Option ℚ
deriving DecidableEq

/-- Python list indexing `l[i]` on an `int` index: negative indices count
from the end; out-of-range raises (`none`). -/
def pyGet (l : List α) (i : ℤ) : Option α :=
  if 0 ≤ i then l.get? i.toNat
  else if 0 ≤ (l.length : ℤ) + i then l.get? ((l.length : ℤ) + i).toNat
  else none

/-- The `while` loop of `_predict_single_model` (source lines 104-120):
walk one tree from node index `idx`, returning the leaf value reached.
The loop's state is just the node index, so if no leaf is reached within
`tree.length + 1` steps an index repeats and the Python loop runs forever;
the fuel models exactly that (`none` = exception or non-termination). -/
def walkTree (fuel : ℕ) (tree : GbmTree) (features : List ℚ) (idx : ℤ) : Option ℚ :=
  match fuel with
  | 0 => none
  | fuel + 1 =>
    match pyGet tree idx with
    | none => none
    | some node =>
      if node.left = -1 ∧ node.right = -1 then some node.value
      else
        match pyGet features node.feat with
        | none => none
        | some x =>
          walkTree fuel tree features (if x ≤ node.threshold then node.left else node.right)

/-- The accumulation loop of `_predict_single_model` (source lines
103-114): fold over the trees, adding `leaf_value * learning_rate`. -/
def accumulate_trees (learning_rate : ℚ) (features : List ℚ) :
    List GbmTree → ℚ → Option ℚ
  | [], acc => some acc
  | t :: ts, acc =>
    match walkTree (t.length + 1) t features 0 with
    | none => none
    | some v => accumulate_trees learning_rate features ts (acc + v * learning_rate)

/-- `_predict_single_model` (source lines 97-122). -/
def _predict_single_model (model : SingleModel) (features : List ℚ) : Option ℚ :=
  accumulate_trees model.learning_rate features model.trees model.init_prediction

/-- The raw (pre-shrink, pre-cap) prediction of `_predict_ml_residual`
(source lines 72-80): single model, or the mean of the two ensemble
members. -/
def rawPrediction (model : GbmModel) (features : List ℚ) : Option ℚ :=
  if model.is_ensemble then
    match model.model1, model.model2 with
    | some m1, some m2 =>
      match _predict_single_model m1 features, _predict_single_model m2 features with
      | some p1, some p2 => some ((p1 + p2) / 2)
      | _, _ => none
    | _, _ => none
  else _predict_single_model model.base features

/-- `model.get('shrink', 0.90)` (source line 86). -/
def shrinkOf (model : GbmModel) : ℚ := model.shrink.getD (90/100)

/-- `model.get('cap', 600)` (source line 87). -/
def capOf (model : GbmModel) : ℚ := model.cap.getD 600

/-- `_predict_ml_residual` (source lines 35-95), taking the cached model
(`none` when the artifact file was not found) and the derived feature
vector.  With no model the residual is `0.00`; otherwise the raw
prediction is multiplied by the shrink and clamped to `[-cap, cap]`. -/
def _predict_ml_residual (mopt : Option GbmModel) (features : List ℚ) : Option ℚ :=
  match mopt with
  | none => some 0
  | some model =>
    (rawPrediction model features).map fun p =>
      max (min (p * shrinkOf model) (capOf model)) (-(capOf model))

/-- `calculate_reimbursement` (source lines 334-364): round each of the
six components to cents independently and sum.  `mopt` is the cached
model (`_load_gbm_model`), `features` the derived feature vector. -/
def calculate_reimbursement (mopt : Option GbmModel) (features : List ℚ)
    (trip_duration_days : ℤ) (miles_traveled : ℚ) (total_receipts_amount : ℚ) : Option ℚ :=
  (_predict_ml_residual mopt features).map fun ml =>
    _r (calculate_layer_0_per_diem trip_duration_days) +
    _r (calculate_layer_1_mileage trip_duration_days miles_traveled) +
    _r (calculate_layer_2_receipts trip_duration_days total_receipts_amount) +
    _r (calculate_layer_3_efficiency_bonus trip_duration_days miles_traveled) +
    _r (calculate_layer_4_special_cases trip_duration_days miles_traveled
      total_receipts_amount) +
    _r ml

/-! ## Rounding lemmas -/

/-- Every rounded value is an integer number of cents. -/
lemma r_eq_int_div (x : ℚ) : ∃ k : ℤ, _r x = (k : ℚ) / 100 := by
  unfold _r
  split
  · exact ⟨_, rfl⟩
  · exact ⟨-⌊(-x) * 100 + 1/2⌋, by push_cast; ring⟩

/-- Rounding to cents fixes any integer number of cents. -/
lemma r_idem_cents (k : ℤ) : _r ((k : ℚ) / 100) = (k : ℚ) / 100 := by
  unfold _r
  have hmul : (k : ℚ) / 100 * 100 = (k : ℚ) := div_mul_cancel₀ _ (by norm_num)
  split
  · rw [hmul, Int.floor_int_add, show ⌊(1/2 : ℚ)⌋ = 0 from by norm_num]
    push_cast; ring
  · rw [show -((k : ℚ) / 100) * 100 + 1/2 = ((-k : ℤ) : ℚ) + 1/2 from by push_cast; ring,
      Int.floor_int_add, show ⌊(1/2 : ℚ)⌋ = 0 from by norm_num]
    push_cast; ring

/-! ## Claims -/

/-- **C1**: for every input triple, the total reimbursement equals the
exact sum of the six components (per-diem, mileage, receipt, efficiency,
special, ml residual), each independently rounded to two decimal places
with round-half-up before summing; and no further rounding is applied to
the sum (rounding the total would change nothing, since a sum of
cent-quantized values is already cent-exact). -/
theorem C1_total_is_sum_of_rounded_components
    (mopt : Option GbmModel) (features : List ℚ) (d : ℤ) (m rc ml : ℚ)
    (hml : _predict_ml_residual mopt features = some ml) :
    calculate_reimbursement mopt features d m rc =
      some (_r (calculate_layer_0_per_diem d) + _r (calculate_layer_1_mileage d m) +
        _r (calculate_layer_2_receipts d rc) + _r (calculate_layer_3_efficiency_bonus d m) +
        _r (calculate_layer_4_special_cases d m rc) + _r ml) ∧
    ∀ total, calculate_reimbursement mopt features d m rc = some total → _r total = total := by
  have heq : calculate_reimbursement mopt features d m rc =
      some (_r (calculate_layer_0_per_diem d) + _r (calculate_layer_1_mileage d m) +
        _r (calculate_layer_2_receipts d rc) + _r (calculate_layer_3_efficiency_bonus d m) +
        _r (calculate_layer_4_special_cases d m rc) + _r ml) := by
    unfold calculate_reimbursement
    rw [hml]
    rfl
  refine ⟨heq, fun total htot => ?_⟩
  rw [heq, Option.some_inj] at htot
  obtain ⟨k0, h0⟩ := r_eq_int_div (calculate_layer_0_per_diem d)
  obtain ⟨k1, h1⟩ := r_eq_int_div (calculate_layer_1_mileage d m)
  obtain ⟨k2, h2⟩ := r_eq_int_div (calculate_layer_2_receipts d rc)
  obtain ⟨k3, h3⟩ := r_eq_int_div (calculate_layer_3_efficiency_bonus d m)
  obtain ⟨k4, h4⟩ := r_eq_int_div (calculate_layer_4_special_cases d m rc)
  obtain ⟨k5, h5⟩ := r_eq_int_div ml
  have : total = ((k0 + k1 + k2 + k3 + k4 + k5 : ℤ) : ℚ) / 100 := by
    rw [← htot, h0, h1, h2, h3, h4, h5]; push_cast; ring
  rw [this, r_idem_cents]

/-- Witness for C1 at the concrete input (no model, 1 day, 0 miles,
0 receipts). -/
theorem C1_total_is_sum_of_rounded_components_witness :
    calculate_reimbursement none [] 1 0 0 =
      some (_r (calculate_layer_0_per_diem 1) + _r (calculate_layer_1_mileage 1 0) +
        _r (calculate_layer_2_receipts 1 0) + _r (calculate_layer_3_efficiency_bonus 1 0) +
        _r (calculate_layer_4_special_cases 1 0 0) + _r 0) ∧
    _r (_r (calculate_layer_0_per_diem 1) + _r (calculate_layer_1_mileage 1 0) +
        _r (calculate_layer_2_receipts 1 0) + _r (calculate_layer_3_efficiency_bonus 1 0) +
        _r (calculate_layer_4_special_cases 1 0 0) + _r 0) =
      _r (calculate_layer_0_per_diem 1) + _r (calculate_layer_1_mileage 1 0) +
        _r (calculate_layer_2_receipts 1 0) + _r (calculate_layer_3_efficiency_bonus 1 0) +
        _r (calculate_layer_4_special_cases 1 0 0) + _r 0 := by
  have h := C1_total_is_sum_of_rounded_components none [] 1 0 0 0 rfl
  exact ⟨h.1, h.2 _ h.1⟩

/-- **C2 counterexample**: the receipt amount `$0.49` has cents digits 49,
and zeroing its cents gives `$0.00`; but for 2 days the receipts layer
yields `$5.294` for `$0.49` (60% of 0.49 plus the $5 bonus) and `$0.00`
for `$0.00` — a difference of `$5.294`, not exactly `$5.00`.  The base
part of the layer is computed on the full amount including the cents, so
the difference against the cents-zeroed amount always exceeds $5. -/
theorem C2_quirk_difference_counterexample :
    receipt_cents (49/100) = 49 ∧
    calculate_layer_2_receipts 2 (49/100) ≠ calculate_layer_2_receipts 2 0 + 5 := by
  norm_num [calculate_layer_2_receipts, calculate_layer_2_receipts_base, cents_quirk_bonus,
    receipt_cents, pyDecMod, truncQ, get_daily_receipt_cap, DAILY_RECEIPT_CAPS,
    get_receipt_excess_rate, RECEIPT_EXCESS_RATES, RECEIPT_BASE_RATE]

/-- **C2 (amended)**: for every receipt amount whose cents value is 49 or
99, and for every day count, the receipts-layer output is exactly $5.00
higher than the value the layer computes for that same amount without the
cents-quirk bonus (not: than the output for the cents-zeroed amount). -/
theorem C2_quirk_bonus_amended (d : ℤ) (rc : ℚ)
    (h : receipt_cents rc = 49 ∨ receipt_cents rc = 99) :
    calculate_layer_2_receipts d rc = calculate_layer_2_receipts_base d rc + 5 := by
  unfold calculate_layer_2_receipts cents_quirk_bonus
  rw [if_pos h]

/-- Witness for the amended C2 at the spec's own example `$148.49`. -/
theorem C2_quirk_bonus_amended_witness :
    calculate_layer_2_receipts 2 (14849/100) =
      calculate_layer_2_receipts_base 2 (14849/100) + 5 :=
  C2_quirk_bonus_amended 2 (14849/100)
    (Or.inl (by norm_num [receipt_cents, pyDecMod, truncQ]))

/-- For day counts ≥ 8 the daily-caps dictionary has no entry. -/
lemma daily_caps_none (d : ℤ) (h : 8 ≤ d) : DAILY_RECEIPT_CAPS d = none := by
  unfold DAILY_RECEIPT_CAPS
  rw [if_neg (by omega : ¬ d = 1), if_neg (by omega : ¬ d = 2), if_neg (by omega : ¬ d = 3),
    if_neg (by omega : ¬ d = 4), if_neg (by omega : ¬ d = 5), if_neg (by omega : ¬ d = 6),
    if_neg (by omega : ¬ d = 7)]

/-- Closed form of the per-day receipt cap for multi-day trips: 150 for
2-3 days, 120 for 4-6 days, and one shared value 100 for all day counts
≥ 7 (via the explicit 7-day entry and the `DAILY_RECEIPT_CAPS[7]`
fallback). -/
lemma daily_cap_closed (d : ℤ) (h : 2 ≤ d) :
    get_daily_receipt_cap d = if d ≤ 3 then 150 else if d ≤ 6 then 120 else 100 := by
  by_cases h7 : d ≤ 7
  · interval_cases d <;> norm_num [get_daily_receipt_cap, DAILY_RECEIPT_CAPS]
  · unfold get_daily_receipt_cap
    rw [daily_caps_none d (by omega), if_neg (by omega : ¬ d ≤ 3),
      if_neg (by omega : ¬ d ≤ 6)]
    norm_num [DAILY_RECEIPT_CAPS]

/-- Closed form of the receipt excess rate for multi-day trips: 40% for
2-3 days, 10% for 4-6 days, 20% for 7 days and beyond (including the
`long` default for day counts above 30). -/
lemma excess_rate_closed (d : ℤ) (h : 2 ≤ d) :
    get_receipt_excess_rate d =
      if d ≤ 3 then 40/100 else if d ≤ 6 then 10/100 else 20/100 := by
  unfold get_receipt_excess_rate RECEIPT_EXCESS_RATES
  rw [List.find?_cons_of_neg _ (by simp only [decide_eq_true_eq]; omega)]
  by_cases h3 : d ≤ 3
  · rw [List.find?_cons_of_pos _ (by simp only [decide_eq_true_eq]; omega),
      if_pos h3]
  · rw [List.find?_cons_of_neg _ (by simp only [decide_eq_true_eq]; omega),
      if_neg h3]
    by_cases h6 : d ≤ 6
    · rw [List.find?_cons_of_pos _ (by simp only [decide_eq_true_eq]; omega), if_pos h6]
    · rw [List.find?_cons_of_neg _ (by simp only [decide_eq_true_eq]; omega), if_neg h6]
      by_cases h30 : d ≤ 30
      · rw [List.find?_cons_of_pos _ (by simp only [decide_eq_true_eq]; omega)]
      · rw [List.find?_cons_of_neg _ (by simp only [decide_eq_true_eq]; omega)]
        rfl

/-- Closed form of the one-day progressive tiers. -/
lemma layer2_base_one_day (rc : ℚ) :
    calculate_layer_2_receipts_base 1 rc =
      min rc 500 * (60/100) + min (max (rc - 500) 0) 1000 * (40/100) +
      max (rc - 1500) 0 * (20/100) := by
  unfold calculate_layer_2_receipts_base
  rw [if_pos rfl]
  rcases le_or_lt rc 500 with h1 | h1
  · have hmin : min rc (500 : ℚ) = rc := min_eq_left h1
    have hmax1 : max (rc - 500) (0 : ℚ) = 0 := max_eq_right (by linarith)
    have hmax2 : max (rc - 1500) (0 : ℚ) = 0 := max_eq_right (by linarith)
    simp only [hmin, hmax1, hmax2]
    rw [if_neg (by linarith : ¬ rc - rc > 0),
      min_eq_left (by norm_num : (0 : ℚ) ≤ 1000)]
    ring
  · have hmin : min rc (500 : ℚ) = 500 := min_eq_right (by linarith)
    have hmax1 : max (rc - 500) (0 : ℚ) = rc - 500 := max_eq_left (by linarith)
    simp only [hmin, hmax1]
    rw [if_pos (by linarith : rc - 500 > 0)]
    rcases le_or_lt rc 1500 with h2 | h2
    · have hmin2 : min (rc - 500) (1000 : ℚ) = rc - 500 := min_eq_left (by linarith)
      have hmax2 : max (rc - 1500) (0 : ℚ) = 0 := max_eq_right (by linarith)
      simp only [hmin2, hmax2]
      rw [if_neg (by linarith : ¬ rc - 500 - (rc - 500) > 0)]
      ring
    · have hmin2 : min (rc - 500) (1000 : ℚ) = 1000 := min_eq_right (by linarith)
      have hmax2 : max (rc - 1500) (0 : ℚ) = rc - 1500 := max_eq_left (by linarith)
      simp only [hmin2, hmax2]
      rw [if_pos (by linarith : rc - 500 - 1000 > 0)]
      ring

/-- Closed form of the multi-day capped-linear scheme. -/
lemma layer2_base_multi_day (d : ℤ) (rc : ℚ) (h : 2 ≤ d) :
    calculate_layer_2_receipts_base d rc =
      min rc (get_daily_receipt_cap d * d) * (60/100) +
      max (rc - get_daily_receipt_cap d * d) 0 *
        (if d ≤ 3 then 40/100 else if d ≤ 6 then 10/100 else 20/100) := by
  unfold calculate_layer_2_receipts_base
  rw [if_neg (by omega : ¬ d = 1), excess_rate_closed d h]
  simp only [RECEIPT_BASE_RATE]
  rcases le_or_lt rc (get_daily_receipt_cap d * (d : ℚ)) with hc | hc
  · rw [if_pos hc, min_eq_left hc, max_eq_right (by linarith)]
    ring
  · rw [if_neg (by linarith), min_eq_right (by linarith), max_eq_left (by linarith)]

/-- **C3**: the receipts layer computes, for 1 day, three progressive
tiers (first $500 at 60%, next $1000 at 40%, remainder at 20%) applied to
the portion of receipts in each band; for ≥ 2 days, a capped-linear
scheme whose total cap is the per-day cap times days (per-day cap 150 for
2-3 days, 120 for 4-6 days, one shared value 100 for all day counts ≥ 7),
with receipts up to the cap at 60% and the excess at 40% for 2-3 days,
10% for 4-6 days and 20% for 7+ days (plus, in both branches, the
separate cents-quirk bonus). -/
theorem C3_receipts_layer_structure (d : ℤ) (rc : ℚ) :
    (calculate_layer_2_receipts 1 rc =
      min rc 500 * (60/100) + min (max (rc - 500) 0) 1000 * (40/100) +
      max (rc - 1500) 0 * (20/100) + cents_quirk_bonus rc) ∧
    (2 ≤ d → calculate_layer_2_receipts d rc =
      min rc (get_daily_receipt_cap d * d) * (60/100) +
      max (rc - get_daily_receipt_cap d * d) 0 *
        (if d ≤ 3 then 40/100 else if d ≤ 6 then 10/100 else 20/100) +
      cents_quirk_bonus rc ∧
      get_daily_receipt_cap d = (if d ≤ 3 then 150 else if d ≤ 6 then 120 else 100)) := by
  constructor
  · unfold calculate_layer_2_receipts
    rw [layer2_base_one_day]
  · intro h
    refine ⟨?_, daily_cap_closed d h⟩
    unfold calculate_layer_2_receipts
    rw [layer2_base_multi_day d rc h]

/-- Witness for C3 at 4 days, $1000 of receipts (and the one-day formula
at $1000). -/
theorem C3_receipts_layer_structure_witness :
    (calculate_layer_2_receipts 1 1000 =
      min (1000 : ℚ) 500 * (60/100) + min (max ((1000 : ℚ) - 500) 0) 1000 * (40/100) +
      max ((1000 : ℚ) - 1500) 0 * (20/100) + cents_quirk_bonus 1000) ∧
    (calculate_layer_2_receipts 4 1000 =
      min (1000 : ℚ) (get_daily_receipt_cap 4 * (4 : ℤ)) * (60/100) +
      max ((1000 : ℚ) - get_daily_receipt_cap 4 * (4 : ℤ)) 0 *
        (if (4 : ℤ) ≤ 3 then 40/100 else if (4 : ℤ) ≤ 6 then 10/100 else 20/100) +
      cents_quirk_bonus 1000 ∧
      get_daily_receipt_cap 4 =
        (if (4 : ℤ) ≤ 3 then 150 else if (4 : ℤ) ≤ 6 then 120 else 100)) :=
  ⟨(C3_receipts_layer_structure 4 1000).1,
   (C3_receipts_layer_structure 4 1000).2 (by norm_num)⟩

/-- The mileage layer as a sum: two-tier base plus two independent,
additive conditional bonuses. -/
lemma layer1_closed (d : ℤ) (m : ℚ) :
    calculate_layer_1_mileage d m =
      (if m ≤ 100 then m * (58/100) else 100 * (58/100) + (m - 100) * (15/100)) +
      (if m > 500 then (m - 500) * ((30/100) * (1 + 1 / (d : ℚ))) else 0) +
      (if d ≥ 7 ∧ m > 700 ∧ m / (d : ℚ) > 120 then (m - 700) * (25/100) else 0) := by
  unfold calculate_layer_1_mileage MILEAGE_TIER_BREAKPOINT MILEAGE_RATE_LOW MILEAGE_RATE_HIGH
    HIGH_MILEAGE_BONUS_THRESHOLD HIGH_MILEAGE_BONUS_BASE_RATE LONG_TRIP_BONUS_THRESHOLD_DAYS
    LONG_TRIP_BONUS_THRESHOLD_MILES LONG_TRIP_BONUS_RATE LONG_TRIP_MIN_MILES_PER_DAY
  dsimp only
  split_ifs <;> ring

/-- **C4**: for every input with at least one day, the mileage layer
equals the two-tier base amount (first 100 miles at 0.58 per mile,
remainder at 0.15) plus two additive, non-exclusive conditional bonuses:
(a) for miles > 500, `(miles - 500) * (0.30 * (1 + 1/days))`; and (b) for
days ≥ 7, miles > 700 and miles/days > 120, `(miles - 700) * 0.25`. -/
theorem C4_mileage_layer_structure (d : ℤ) (m : ℚ) (hd : 1 ≤ d) :
    calculate_layer_1_mileage d m =
      (if m ≤ 100 then m * (58/100) else 100 * (58/100) + (m - 100) * (15/100)) +
      (if m > 500 then (m - 500) * ((30/100) * (1 + 1 / (d : ℚ))) else 0) +
      (if d ≥ 7 ∧ m > 700 ∧ m / (d : ℚ) > 120 then (m - 700) * (25/100) else 0) :=
  layer1_closed d m

/-- Witness for C4 at 7 days, 1200 miles (both bonuses active). -/
theorem C4_mileage_layer_structure_witness :
    calculate_layer_1_mileage 7 1200 =
      (if (1200 : ℚ) ≤ 100 then (1200 : ℚ) * (58/100)
        else 100 * (58/100) + ((1200 : ℚ) - 100) * (15/100)) +
      (if (1200 : ℚ) > 500 then ((1200 : ℚ) - 500) * ((30/100) * (1 + 1 / ((7 : ℤ) : ℚ)))
        else 0) +
      (if (7 : ℤ) ≥ 7 ∧ (1200 : ℚ) > 700 ∧ (1200 : ℚ) / ((7 : ℤ) : ℚ) > 120
        then ((1200 : ℚ) - 700) * (25/100) else 0) :=
  C4_mileage_layer_structure 7 1200 (by norm_num)

/-- The mileage layer is strictly increasing in miles for any fixed
positive day count (each bonus is nondecreasing and the tiered base is
strictly increasing). -/
lemma layer1_strict_mono (d : ℤ) (hd : 1 ≤ d) {m1 m2 : ℚ} (hm : m1 < m2) :
    calculate_layer_1_mileage d m1 < calculate_layer_1_mileage d m2 := by
  have hdq : (0 : ℚ) < (d : ℚ) := by exact_mod_cast (by omega : (0 : ℤ) < d)
  have hinv : (0 : ℚ) < 1 / (d : ℚ) := by positivity
  rw [layer1_closed, layer1_closed]
  have hbase :
      (if m1 ≤ 100 then m1 * (58/100) else 100 * (58/100) + (m1 - 100) * (15/100)) <
      (if m2 ≤ 100 then m2 * (58/100) else 100 * (58/100) + (m2 - 100) * (15/100)) := by
    split_ifs with h1 h2 h2 <;> linarith
  have hA :
      (if m1 > 500 then (m1 - 500) * ((30/100) * (1 + 1 / (d : ℚ))) else 0) ≤
      (if m2 > 500 then (m2 - 500) * ((30/100) * (1 + 1 / (d : ℚ))) else 0) := by
    have hc : (0 : ℚ) < (30/100) * (1 + 1 / (d : ℚ)) := by nlinarith
    split_ifs with h1 h2 h2
    · exact mul_le_mul_of_nonneg_right (by linarith) hc.le
    · exact absurd (h1.trans hm) h2
    · exact mul_nonneg (by linarith) hc.le
    · exact le_refl 0
  have hB :
      (if d ≥ 7 ∧ m1 > 700 ∧ m1 / (d : ℚ) > 120 then (m1 - 700) * (25/100) else 0) ≤
      (if d ≥ 7 ∧ m2 > 700 ∧ m2 / (d : ℚ) > 120 then (m2 - 700) * (25/100) else 0) := by
    have hdiv : m1 / (d : ℚ) < m2 / (d : ℚ) := (div_lt_div_iff_of_pos_right hdq).mpr hm
    split_ifs with h1 h2 h2
    · linarith [h1.2.1]
    · exact absurd ⟨h1.1, h1.2.1.trans hm, h1.2.2.trans hdiv⟩ h2
    · nlinarith [h2.2.1]
    · exact le_refl 0
  linarith

/-- **C9**: for every fixed day count ≥ 1 and any mileages `m1 < m2` on
the same side of the 100-mile breakpoint and of the 500-mile and 700-mile
bonus thresholds, the mileage layer is strictly larger at `m2`. -/
theorem C9_mileage_monotone_within_tier (d : ℤ) (m1 m2 : ℚ)
    (hd : 1 ≤ d) (hm : m1 < m2)
    (h100 : m1 ≤ 100 ↔ m2 ≤ 100) (h500 : 500 < m1 ↔ 500 < m2)
    (h700 : 700 < m1 ↔ 700 < m2) :
    calculate_layer_1_mileage d m1 < calculate_layer_1_mileage d m2 :=
  layer1_strict_mono d hd hm

/-- Witness for C9 at 2 days, 10 vs 20 miles. -/
theorem C9_mileage_monotone_within_tier_witness :
    calculate_layer_1_mileage 2 10 < calculate_layer_1_mileage 2 20 :=
  C9_mileage_monotone_within_tier 2 10 20 (by norm_num) (by norm_num)
    (by norm_num) (by norm_num) (by norm_num)

/-- Spec-side reformulation of the forest walk: the list of leaf values
reached in each tree (each walk starting at node index 0), `none` if any
walk fails. -/
def walkForest (features : List ℚ) : List GbmTree → Option (List ℚ)
  | [] => some []
  | t :: ts =>
    match walkTree (t.length + 1) t features 0, walkForest features ts with
    | some v, some vs => some (v :: vs)
    | _, _ => none

/-- The accumulation loop computes `acc` plus the sum of the scaled leaf
values whenever every tree walk succeeds. -/
lemma accumulate_trees_eq_sum (lr : ℚ) (features : List ℚ) :
    ∀ (ts : List GbmTree) (acc : ℚ) (vals : List ℚ),
      walkForest features ts = some vals →
      accumulate_trees lr features ts acc =
        some (acc + (vals.map (· * lr)).sum) := by
  intro ts
  induction ts with
  | nil =>
    intro acc vals h
    simp only [walkForest, Option.some_inj] at h
    subst h
    simp [accumulate_trees]
  | cons t ts ih =>
    intro acc vals h
    simp only [walkForest] at h
    cases hw : walkTree (t.length + 1) t features 0 with
    | none => rw [hw] at h; exact absurd h (by simp)
    | some v =>
      rw [hw] at h
      cases hf : walkForest features ts with
      | none => rw [hf] at h; exact absurd h (by simp)
      | some vs =>
        rw [hf, Option.some_inj] at h
        subst h
        simp only [accumulate_trees, hw]
        rw [ih (acc + v * lr) vs hf]
        congr 1
        simp only [List.map_cons, List.sum_cons]
        ring

/-- **C5**: the tree evaluator starts at node index 0; at each node it
descends left when `features[node.feat] ≤ node.threshold` and right
otherwise; a node is a leaf iff both child indices are −1, and the leaf
contributes `leaf_value * learning_rate`; the per-model prediction is
`init_prediction` plus the sum of these contributions over all trees. -/
theorem C5_tree_evaluation
    (tree : GbmTree) (features : List ℚ) (idx : ℤ) (node : TreeNode)
    (model : SingleModel) (vals : List ℚ) :
    (∀ fuel, pyGet tree idx = some node → node.left = -1 → node.right = -1 →
      walkTree (fuel + 1) tree features idx = some node.value) ∧
    (∀ fuel x, pyGet tree idx = some node → ¬(node.left = -1 ∧ node.right = -1) →
      pyGet features node.feat = some x →
      walkTree (fuel + 1) tree features idx =
        walkTree fuel tree features
          (if x ≤ node.threshold then node.left else node.right)) ∧
    (walkForest features model.trees = some vals →
      _predict_single_model model features =
        some (model.init_prediction + (vals.map (· * model.learning_rate)).sum)) := by
  refine ⟨?_, ?_, ?_⟩
  · intro fuel hnode hl hr
    simp only [walkTree, hnode]
    rw [if_pos (show node.left = -1 ∧ node.right = -1 from ⟨hl, hr⟩)]
  · intro fuel x hnode hnotleaf hx
    simp only [walkTree, hnode, if_neg hnotleaf, hx]
  · intro h
    exact accumulate_trees_eq_sum model.learning_rate features model.trees
      model.init_prediction vals h

/-- Witness for C5 on a concrete one-tree model: root (feature 0,
threshold 5, children 1 and 2) and two leaves with values 3 and 7;
feature vector `[4]` descends left and yields `init 10 + 3 * lr 1/2`. -/
theorem C5_tree_evaluation_witness :
    walkTree 1 [TreeNode.mk 0 5 1 2 0, TreeNode.mk 0 0 (-1) (-1) 3,
        TreeNode.mk 0 0 (-1) (-1) 7] [4] 1 = some 3 ∧
    walkTree 3 [TreeNode.mk 0 5 1 2 0, TreeNode.mk 0 0 (-1) (-1) 3,
        TreeNode.mk 0 0 (-1) (-1) 7] [4] 0 =
      walkTree 2 [TreeNode.mk 0 5 1 2 0, TreeNode.mk 0 0 (-1) (-1) 3,
        TreeNode.mk 0 0 (-1) (-1) 7] [4]
        (if (4 : ℚ) ≤ 5 then 1 else 2) ∧
    _predict_single_model
        (SingleModel.mk 10 (1/2) [[TreeNode.mk 0 5 1 2 0, TreeNode.mk 0 0 (-1) (-1) 3,
          TreeNode.mk 0 0 (-1) (-1) 7]]) [4] =
      some (10 + (([3] : List ℚ).map (· * (1/2))).sum) := by
  have h := C5_tree_evaluation
    [TreeNode.mk 0 5 1 2 0, TreeNode.mk 0 0 (-1) (-1) 3, TreeNode.mk 0 0 (-1) (-1) 7]
    [4] 0 (TreeNode.mk 0 5 1 2 0)
    (SingleModel.mk 10 (1/2) [[TreeNode.mk 0 5 1 2 0, TreeNode.mk 0 0 (-1) (-1) 3,
      TreeNode.mk 0 0 (-1) (-1) 7]]) [3]
  have h' := C5_tree_evaluation
    [TreeNode.mk 0 5 1 2 0, TreeNode.mk 0 0 (-1) (-1) 3, TreeNode.mk 0 0 (-1) (-1) 7]
    [4] 1 (TreeNode.mk 0 0 (-1) (-1) 3)
    (SingleModel.mk 10 (1/2) [[TreeNode.mk 0 5 1 2 0, TreeNode.mk 0 0 (-1) (-1) 3,
      TreeNode.mk 0 0 (-1) (-1) 7]]) [3]
  refine ⟨h'.1 0 (by rfl) rfl rfl, h.2.1 2 4 (by rfl) (by simp) (by rfl), h.2.2 ?_⟩
  show walkForest [4] _ = some [3]
  rfl

/-- **C6**: for any raw residual prediction `R` (single-model or ensemble
mean), the applied residual equals `clamp(R * shrink, -cap, cap)`; it is
never below `-cap`, and (for a nonnegative cap, as the defaults and any
sensible artifact provide) never above `cap`; `shrink` defaults to 0.90
and `cap` to 600 when the artifact does not supply them. -/
theorem C6_residual_shrink_cap (model : GbmModel) (features : List ℚ) (R : ℚ)
    (hR : rawPrediction model features = some R) :
    _predict_ml_residual (some model) features =
      some (max (min (R * shrinkOf model) (capOf model)) (-(capOf model))) ∧
    (∀ v, _predict_ml_residual (some model) features = some v →
      -(capOf model) ≤ v ∧ (0 ≤ capOf model → v ≤ capOf model)) ∧
    (model.shrink = none → shrinkOf model = 90/100) ∧
    (model.cap = none → capOf model = 600) := by
  have heq : _predict_ml_residual (some model) features =
      some (max (min (R * shrinkOf model) (capOf model)) (-(capOf model))) := by
    show (rawPrediction model features).map _ = _
    rw [hR]
    rfl
  refine ⟨heq, fun v hv => ?_, fun h => by simp [shrinkOf, h], fun h => by simp [capOf, h]⟩
  rw [heq, Option.some_inj] at hv
  subst hv
  exact ⟨le_max_right _ _, fun hcap => max_le (min_le_right _ _) (by linarith)⟩

/-- Witness for C6 on a concrete tree-less single model with no
artifact-supplied shrink/cap: raw prediction 1000, residual
clamp(900, -600, 600) = 600. -/
theorem C6_residual_shrink_cap_witness :
    _predict_ml_residual (some (GbmModel.mk (SingleModel.mk 1000 1 []) false none none
        none none)) [] =
      some (max (min ((1000 : ℚ) *
          shrinkOf (GbmModel.mk (SingleModel.mk 1000 1 []) false none none none none))
        (capOf (GbmModel.mk (SingleModel.mk 1000 1 []) false none none none none)))
        (-(capOf (GbmModel.mk (SingleModel.mk 1000 1 []) false none none none none)))) ∧
    shrinkOf (GbmModel.mk (SingleModel.mk 1000 1 []) false none none none none) = 90/100 ∧
    capOf (GbmModel.mk (SingleModel.mk 1000 1 []) false none none none none) = 600 := by
  have h := C6_residual_shrink_cap
    (GbmModel.mk (SingleModel.mk 1000 1 []) false none none none none) [] 1000 (by rfl)
  exact ⟨h.1, h.2.2.1 rfl, h.2.2.2 rfl⟩

/-- The per-diem table has no entry above 14 days. -/
lemma per_diem_table_none (d : ℤ) (h : d > 14 ∨ d ≤ 0) : BASE_PER_DIEM_RATES d = none := by
  unfold BASE_PER_DIEM_RATES
  rw [if_neg (by omega : ¬ d = 1), if_neg (by omega : ¬ d = 2), if_neg (by omega : ¬ d = 3),
    if_neg (by omega : ¬ d = 4), if_neg (by omega : ¬ d = 5), if_neg (by omega : ¬ d = 6),
    if_neg (by omega : ¬ d = 7), if_neg (by omega : ¬ d = 8), if_neg (by omega : ¬ d = 9),
    if_neg (by omega : ¬ d = 10), if_neg (by omega : ¬ d = 11), if_neg (by omega : ¬ d = 12),
    if_neg (by omega : ¬ d = 13), if_neg (by omega : ¬ d = 14)]

/-- **C7**: the per-diem layer is `daily_rate * days` with the rate taken
from the fixed table for day counts 1-14, a flat floor rate of 45 for any
day count above 14, and the in-table floor rate 50 as the fallback for
any other day count missing from the table; on the concrete input
(1 day, 0 miles, 0 receipts) with no model loaded, the total is exactly
the tabulated day-1 rate 120, every other layer is zero and the residual
is zero. -/
theorem C7_per_diem_layer (d : ℤ) :
    calculate_layer_0_per_diem d = get_base_per_diem_rate d * (d : ℚ) ∧
    (d > 14 → get_base_per_diem_rate d = 45) ∧
    (¬ d > 14 → BASE_PER_DIEM_RATES d = none → get_base_per_diem_rate d = 50) ∧
    get_base_per_diem_rate 1 = 120 ∧
    calculate_reimbursement none [] 1 0 0 = some 120 ∧
    calculate_layer_1_mileage 1 0 = 0 ∧
    calculate_layer_2_receipts 1 0 = 0 ∧
    calculate_layer_3_efficiency_bonus 1 0 = 0 ∧
    calculate_layer_4_special_cases 1 0 0 = 0 ∧
    _predict_ml_residual none [] = some 0 := by
  refine ⟨rfl, ?_, ?_, by norm_num [get_base_per_diem_rate, BASE_PER_DIEM_RATES], ?_, ?_, ?_,
    ?_, ?_, rfl⟩
  · intro h
    unfold get_base_per_diem_rate
    rw [per_diem_table_none d (Or.inl h)]
    exact if_pos h
  · intro h hnone
    unfold get_base_per_diem_rate
    rw [hnone]
    exact if_neg h
  · show calculate_reimbursement none [] 1 0 0 = some 120
    norm_num [calculate_reimbursement, _predict_ml_residual, _r, calculate_layer_0_per_diem,
      get_base_per_diem_rate, BASE_PER_DIEM_RATES, calculate_layer_1_mileage,
      MILEAGE_TIER_BREAKPOINT, MILEAGE_RATE_LOW, HIGH_MILEAGE_BONUS_THRESHOLD,
      LONG_TRIP_BONUS_THRESHOLD_DAYS, LONG_TRIP_BONUS_THRESHOLD_MILES,
      LONG_TRIP_MIN_MILES_PER_DAY, calculate_layer_2_receipts, calculate_layer_2_receipts_base,
      cents_quirk_bonus, receipt_cents, pyDecMod, truncQ, calculate_layer_3_efficiency_bonus,
      EFFICIENCY_SWEET_SPOT_MIN, EFFICIENCY_SWEET_SPOT_MAX, calculate_layer_4_special_cases]
  · norm_num [calculate_layer_1_mileage, MILEAGE_TIER_BREAKPOINT, MILEAGE_RATE_LOW,
      HIGH_MILEAGE_BONUS_THRESHOLD, LONG_TRIP_BONUS_THRESHOLD_DAYS,
      LONG_TRIP_BONUS_THRESHOLD_MILES, LONG_TRIP_MIN_MILES_PER_DAY]
  · norm_num [calculate_layer_2_receipts, calculate_layer_2_receipts_base, cents_quirk_bonus,
      receipt_cents, pyDecMod, truncQ]
  · norm_num [calculate_layer_3_efficiency_bonus, EFFICIENCY_SWEET_SPOT_MIN,
      EFFICIENCY_SWEET_SPOT_MAX, calculate_layer_1_mileage, MILEAGE_TIER_BREAKPOINT,
      MILEAGE_RATE_LOW, HIGH_MILEAGE_BONUS_THRESHOLD, LONG_TRIP_BONUS_THRESHOLD_DAYS,
      LONG_TRIP_BONUS_THRESHOLD_MILES, LONG_TRIP_MIN_MILES_PER_DAY]
  · norm_num [calculate_layer_4_special_cases]

/-- Witness for C7 at day counts 20 (floor rate 45) and 0 (fallback 50). -/
theorem C7_per_diem_layer_witness :
    get_base_per_diem_rate 20 = 45 ∧ get_base_per_diem_rate 0 = 50 ∧
    calculate_reimbursement none [] 1 0 0 = some 120 :=
  ⟨(C7_per_diem_layer 20).2.1 (by norm_num),
   (C7_per_diem_layer 0).2.2.1 (by norm_num)
     (per_diem_table_none 0 (Or.inr (by norm_num))),
   (C7_per_diem_layer 1).2.2.2.2.1⟩

/-- **C8**: a missing model artifact is not an error: the residual is
exactly 0.00 and the total is just the sum of the five rounded rule
layers (`_r 0 = 0`), so the rule layers and the final total computation
run unaffected. -/
theorem C8_missing_model_zero_residual (features : List ℚ) (d : ℤ) (m rc : ℚ) :
    _predict_ml_residual none features = some 0 ∧
    calculate_reimbursement none features d m rc =
      some (_r (calculate_layer_0_per_diem d) + _r (calculate_layer_1_mileage d m) +
        _r (calculate_layer_2_receipts d rc) + _r (calculate_layer_3_efficiency_bonus d m) +
        _r (calculate_layer_4_special_cases d m rc)) := by
  have h0 : _r 0 = 0 := by norm_num [_r]
  refine ⟨rfl, ?_⟩
  show some (_r (calculate_layer_0_per_diem d) + _r (calculate_layer_1_mileage d m) +
    _r (calculate_layer_2_receipts d rc) + _r (calculate_layer_3_efficiency_bonus d m) +
    _r (calculate_layer_4_special_cases d m rc) + _r 0) = _
  rw [h0, add_zero]

/-- **C10**: the cents-quirk decision truncates `(receipts mod 1) * 100`
to an integer, so any day count and any receipt amount whose truncated
cents value is 49 or 99 gets the $5.00 bonus — including amounts with
more than two decimal places, such as 12.495 (fractional part 0.495, not
exactly 49 cents) and 12.999 (fractional part 0.999, not exactly 99
cents). -/
theorem C10_truncated_cents_quirk (d : ℤ) :
    (∀ rc : ℚ, receipt_cents rc = 49 ∨ receipt_cents rc = 99 →
      calculate_layer_2_receipts d rc = calculate_layer_2_receipts_base d rc + 5) ∧
    receipt_cents (2499/200) = 49 ∧ pyDecMod (2499/200) 1 ≠ 49/100 ∧
    receipt_cents (12999/1000) = 99 ∧ pyDecMod (12999/1000) 1 ≠ 99/100 ∧
    calculate_layer_2_receipts 2 (2499/200) =
      calculate_layer_2_receipts_base 2 (2499/200) + 5 ∧
    calculate_layer_2_receipts 2 (12999/1000) =
      calculate_layer_2_receipts_base 2 (12999/1000) + 5 := by
  have hgen : ∀ (d' : ℤ) (rc : ℚ), receipt_cents rc = 49 ∨ receipt_cents rc = 99 →
      calculate_layer_2_receipts d' rc = calculate_layer_2_receipts_base d' rc + 5 := by
    intro d' rc h
    unfold calculate_layer_2_receipts cents_quirk_bonus
    rw [if_pos h]
  have h495 : receipt_cents (2499/200) = 49 := by
    norm_num [receipt_cents, pyDecMod, truncQ]
  have h999 : receipt_cents (12999/1000) = 99 := by
    norm_num [receipt_cents, pyDecMod, truncQ]
  exact ⟨hgen d, h495, by norm_num [pyDecMod, truncQ], h999,
    by norm_num [pyDecMod, truncQ], hgen 2 _ (Or.inl h495), hgen 2 _ (Or.inr h999)⟩

/-- Witness for C10 at 5 days and the amount 12.495. -/
theorem C10_truncated_cents_quirk_witness :
    calculate_layer_2_receipts 5 (2499/200) =
      calculate_layer_2_receipts_base 5 (2499/200) + 5 :=
  (C10_truncated_cents_quirk 5).1 (2499/200)
    (Or.inl (by norm_num [receipt_cents, pyDecMod, truncQ]))
